import Mathlib

/-!
Verification of the conference-agenda dialog handler
(src/checkConferenceAgenda.py) against its specification.

The Python module is shallowly embedded below.  Conventions:
  - optional values (Python `None`) become `Option`;
  - Python dictionaries with a fixed key set become structures;
  - code that can raise an uncaught exception returns `Except PyError _`,
    with one constructor per exception class that can actually occur;
  - the external `dateutil.parser.parse` collaborator is a parameter
    `parse_date : String → Option PyDate` (`none` models a `ValueError`
    raise); a concrete instantiation `parse_iso_date` is provided for
    evaluating the code on concrete inputs;
  - the agenda, which the source carries as a JSON string and decodes with
    `json.loads` inside `find_session`, is embedded as the decoded
    `List Session` directly.
-/

/-- A Lex message dictionary: `{'contentType': ..., 'content': ...}`. -/
structure Message where
  contentType : String
  content : String
  deriving DecidableEq, Repr

/-- A response-card button: `{'text': ..., 'value': ...}`. -/
structure Button where
  text : String
  value : String
  deriving DecidableEq, Repr

/-- One generic attachment of a response card. -/
structure Attachment where
  title : String
  subTitle : String
  buttons : Option (List Button)
  deriving DecidableEq, Repr

/-- The response card built by `build_response_card`. -/
structure ResponseCard where
  contentType : String
  version : Nat
  genericAttachments : List Attachment
  deriving DecidableEq, Repr

/-- One agenda entry.  The source reads the JSON object keys
`name`, `track`, `date`, `start`, `end`; the `end` key is rendered
`end_` because `end` is a Lean keyword. -/
structure Session where
  name : String
  track : String
  date : String
  start : String
  end_ : String
  deriving DecidableEq, Repr

/-- The slot dictionary of the current intent.  The handler reads exactly
the keys `SessionType`, `SessionDate` and `SessionTime`; a `none` value
models Python `None`. -/
structure SlotSet where
  sessionType : Option String
  sessionDate : Option String
  sessionTime : Option String
  deriving DecidableEq, Repr

/-- The opaque session-attribute bag (a string-to-string mapping passed
through unchanged by the core). -/
abbrev SessionAttrs : Type := List (String × String)

/-- The uncaught Python exceptions that the embedded code can raise. -/
inductive PyError where
  /-- KeyError: reading an absent dictionary key. -/
  | keyError : PyError
  /-- TypeError: subscripting a value that is Python None. -/
  | typeError : PyError
  /-- ValueError: tuple unpacking of a list whose length is not 2. -/
  | valueError : PyError
  deriving DecidableEq, Repr

/-- A calendar date as produced by the external date parser
(the `.date()` of a parsed datetime). -/
structure PyDate where
  year : Nat
  month : Nat
  day : Nat
  deriving DecidableEq, Repr

/-- The dictionary built by `build_validation_result`.  The source omits
the `message` key entirely when the message content is Python `None`:
`message = none` models that ABSENT key, and reading it raises KeyError.
When the key is present its value is always a proper message dictionary. -/
structure ValidationResult where
  isValid : Bool
  violatedSlot : Option String
  message : Option Message
  deriving DecidableEq, Repr

/-- The tagged dialog-action variants the handler can return. -/
inductive DialogAction where
  | elicitSlot (intentName : String) (slots : SlotSet) (slotToElicit : Option String)
      (message : Option Message) (responseCard : Option ResponseCard)
  | confirmIntent (intentName : String) (slots : SlotSet)
      (message : Option Message) (responseCard : Option ResponseCard)
  | delegate (slots : SlotSet)
  | close (fulfillmentState : String) (message : Option Message)
      (responseCard : Option ResponseCard)
  deriving DecidableEq, Repr

/-- A full response: session attributes plus the dialog action. -/
structure Response where
  sessionAttributes : Option SessionAttrs
  dialogAction : DialogAction
  deriving DecidableEq, Repr

/-- The incoming request (`intent_request`): the handler reads
`currentIntent.name`, `currentIntent.slots`, `currentIntent.confirmationStatus`,
`sessionAttributes` and `invocationSource`. -/
structure IntentRequest where
  intentName : String
  slots : SlotSet
  confirmationStatus : String
  sessionAttributes : Option SessionAttrs
  invocationSource : String
  userId : String

/-! ### Python-semantics helpers -/

/-- Python truthiness of an optional string slot value:
`None` and the empty string are falsy, every other string is truthy. -/
def truthy : Option String → Bool
  | none => false
  | some s => s != ""

/-- Models Python `str.lower()` (ASCII case folding; the strings handled
here are ASCII). -/
def py_lower (s : String) : String := String.mk (s.toList.map Char.toLower)

/-- Models Python string `<`: lexicographic comparison by code point,
a strict prefix being smaller. -/
def py_str_lt : List Char → List Char → Bool
  | [], [] => false
  | [], _ :: _ => true
  | _ :: _, [] => false
  | a :: as, b :: bs =>
    if a.toNat < b.toNat then true
    else if b.toNat < a.toNat then false
    else py_str_lt as bs

/-- Models Python `str.split(sep)` for a one-character separator:
maximal runs between separator occurrences, empty runs kept. -/
def py_split_aux (sep : Char) (acc : List Char) : List Char → List (List Char)
  | [] => [acc.reverse]
  | c :: rest =>
    if c == sep then acc.reverse :: py_split_aux sep [] rest
    else py_split_aux sep (c :: acc) rest

/-- See `py_split_aux`. -/
def py_split (s : String) (sep : Char) : List String :=
  (py_split_aux sep [] s.toList).map String.mk

/-- Models Python `str.strip()` with no argument: drop leading and
trailing whitespace. -/
def strip_chars (cs : List Char) : List Char :=
  ((cs.dropWhile Char.isWhitespace).reverse.dropWhile Char.isWhitespace).reverse

/-- Digit run of a Python integer literal after the optional sign:
ASCII digits with single grouping underscores strictly between digits
(so the string 1_2 denotes 12, while a leading, trailing or doubled
underscore is an error).  `none` models `int()` raising ValueError. -/
def py_digit_run_tail (acc : Nat) : List Char → Option Nat
  | [] => some acc
  | [c] => if c.isDigit then some (10 * acc + (c.toNat - 48)) else none
  | c :: d :: rest =>
    if c.isDigit then py_digit_run_tail (10 * acc + (c.toNat - 48)) (d :: rest)
    else if c == '_' then
      if d.isDigit then py_digit_run_tail (10 * acc + (d.toNat - 48)) rest else none
    else none

/-- See `py_digit_run_tail`; the first character must be a digit. -/
def py_digit_run : List Char → Option Nat
  | [] => none
  | c :: rest => if c.isDigit then py_digit_run_tail (c.toNat - 48) rest else none

/-- Models the Python builtin `int(s)` on the strings arising here:
surrounding whitespace is stripped, then an optional single sign precedes
a digit run (see `py_digit_run`).  `none` models a ValueError raise.
Non-ASCII digits and non-ASCII whitespace are outside the model. -/
def py_int (s : String) : Option Int :=
  match strip_chars s.toList with
  | '+' :: rest => (py_digit_run rest).map (fun n => (n : Int))
  | '-' :: rest => (py_digit_run rest).map (fun n => -(n : Int))
  | cs => (py_digit_run cs).map (fun n => (n : Int))

/-- Source `parse_int`: wraps `int(n)` and turns a ValueError into NaN.
NaN is modelled as `none` (the only use site tests `math.isnan` before
using the value, so no NaN arithmetic is ever performed). -/
def parse_int (n : String) : Option Int := py_int n

/-- Models `datetime.strptime('2017-11-08', '%Y-%m-%d').date()`. -/
def conference_date : PyDate := ⟨2017, 11, 8⟩

/-- All-ASCII-digit decimal reading, used by the concrete date parser. -/
def dec_digits (cs : List Char) : Option Nat :=
  if !cs.isEmpty && cs.all Char.isDigit then
    some (cs.foldl (fun n c => 10 * n + (c.toNat - 48)) 0)
  else none

/-- A concrete instantiation of the external `dateutil.parser.parse`
collaborator, used to evaluate the code on concrete inputs: accepts
exactly the zero-padded `YYYY-MM-DD` form with month in 1..12 and day
in 1..31.  `none` models a ValueError raise.  (The real library accepts
many more formats; the verification is parametric in the parser wherever
that matters.) -/
def parse_iso_date (s : String) : Option PyDate :=
  match py_split s '-' with
  | [y, m, d] =>
    if y.length = 4 && m.length = 2 && d.length = 2 then
      match dec_digits y.toList, dec_digits m.toList, dec_digits d.toList with
      | some yn, some mn, some dn =>
        if 1 ≤ mn && mn ≤ 12 && 1 ≤ dn && dn ≤ 31 then some ⟨yn, mn, dn⟩ else none
      | _, _, _ => none
    else none
  | _ => none

/-! ### Response helpers (source lines 16-73) -/

/-- Source `get_slots`: `intent_request['currentIntent']['slots']`. -/
def get_slots (intent_request : IntentRequest) : SlotSet :=
  intent_request.slots

/-- Source `elicit_slot`. -/
def elicit_slot (session_attributes : Option SessionAttrs) (intent_name : String)
    (slots : SlotSet) (slot_to_elicit : Option String) (message : Option Message)
    (response_card : Option ResponseCard) : Response :=
  { sessionAttributes := session_attributes,
    dialogAction := .elicitSlot intent_name slots slot_to_elicit message response_card }

/-- Source `confirm_intent`. -/
def confirm_intent (session_attributes : Option SessionAttrs) (intent_name : String)
    (slots : SlotSet) (message : Option Message)
    (response_card : Option ResponseCard) : Response :=
  { sessionAttributes := session_attributes,
    dialogAction := .confirmIntent intent_name slots message response_card }

/-- Source `close`. -/
def close (session_attributes : Option SessionAttrs) (fulfillment_state : String)
    (message : Option Message) (response_card : Option ResponseCard) : Response :=
  { sessionAttributes := session_attributes,
    dialogAction := .close fulfillment_state message response_card }

/-- Source `delegate`. -/
def delegate (session_attributes : Option SessionAttrs) (slots : SlotSet) : Response :=
  { sessionAttributes := session_attributes,
    dialogAction := .delegate slots }

/-- Source `build_response_card` (lines 76-95): when options are given,
the button list is the first `min(5, len(options))` options, i.e. the
first five. -/
def build_response_card (title subtitle : String)
    (options : Option (List Button)) : ResponseCard :=
  { contentType := "application/vnd.amazonaws.card.generic",
    version := 1,
    genericAttachments := [{ title := title, subTitle := subtitle,
                             buttons := options.map (fun o => o.take 5) }] }

/-! ### Session matching (source lines 144-151) -/

/-- The loop body condition of `find_session`: track matches
case-insensitively, date matches exactly, and the start time is strictly
greater than the given time (lexicographic string comparison). -/
def session_matches (session_type session_date session_time : String)
    (s : Session) : Bool :=
  py_lower s.track == py_lower session_type && s.date == session_date &&
    py_str_lt session_time.toList s.start.toList

/-- Source `find_session`.  The source receives the agenda as a JSON
string and decodes it with `json.loads`; the embedding takes the decoded
list directly.  `if session_type:` is Python truthiness: both `None` and
the empty string skip the scan and fall through to an implicit `None`
return. -/
def find_session (session_type : Option String) (session_date session_time : String)
    (agenda : List Session) : Option Session :=
  match session_type with
  | none => none
  | some t =>
    if t != "" then agenda.find? (session_matches t session_date session_time)
    else none

/-- Source `build_options` (lines 98-111): one button per type whose
lookup hits (an append inside a for loop, i.e. a filterMap); misses are
omitted. -/
def build_options (session_date session_time : String) (agenda : List Session)
    (type_set : List String) : List Button :=
  type_set.filterMap (fun session_type =>
    (find_session (some session_type) session_date session_time agenda).map
      (fun s => { text := s.track ++ " at " ++ s.start, value := session_type }))

/-! ### Validation (source lines 122-185) -/

/-- Source `build_validation_result`: the `message` key is omitted when
the content is Python `None` (modelled by `message := none`). -/
def build_validation_result (is_valid : Bool) (violated_slot : Option String)
    (message_content : Option String) : ValidationResult :=
  match message_content with
  | none => { isValid := is_valid, violatedSlot := violated_slot, message := none }
  | some c => { isValid := is_valid, violatedSlot := violated_slot,
                message := some { contentType := "PlainText", content := c } }

/-- Source `isvalid_date`: `dateutil.parser.parse` succeeds (the
`ValueError` catch is `parse_date` returning `none`). -/
def isvalid_date (parse_date : String → Option PyDate) (date : String) : Bool :=
  (parse_date date).isSome

/-- The `session_time` block of `validate_conference_booking`
(source lines 168-185) together with the final all-valid return.
`session_time.split(':')` is unpacked into exactly two names; a split
that does not yield exactly two parts makes that unpacking raise an
uncaught ValueError. -/
def check_session_time (session_time : Option String) : Except PyError ValidationResult :=
  match session_time with
  | none => .ok (build_validation_result true none none)
  | some t =>
    if t.length ≠ 5 then
      -- Not a valid time; use a prompt defined on the build-time model.
      .ok (build_validation_result false (some "SessionTime") none)
    else
      match py_split t ':' with
      | [h, m] =>
        match parse_int h, parse_int m with
        | some hour, some _minute =>
          if hour < 8 ∨ hour > 17 then
            -- Outside of business hours
            .ok (build_validation_result false (some "SessionTime")
              (some "The conference hours are from 9am to 6pm. Can you specify a time during this range?"))
          else
            .ok (build_validation_result true none none)
        | _, _ =>
          -- One of the parts is NaN.
          .ok (build_validation_result false (some "SessionTime") none)
      | _ => .error .valueError

/-- The `session_date` block of `validate_conference_booking`
(source lines 161-166), falling through to the time block.  The source
first calls `isvalid_date` (a try/except around the parse) and then
re-parses to compare with the conference date; because the parser is
deterministic, the two calls are fused into one match here. -/
def check_session_date (parse_date : String → Option PyDate)
    (session_date session_time : Option String) : Except PyError ValidationResult :=
  match session_date with
  | none => check_session_time session_time
  | some d =>
    match parse_date d with
    | none =>
      .ok (build_validation_result false (some "SessionDate")
        (some "I did not understand that, what date would you like to check? e.g. 2017-11-08"))
    | some dd =>
      if dd ≠ conference_date then
        .ok (build_validation_result false (some "SessionDate")
          (some "Sorry, we only have one day agenda for this demo. Please input the conference day 2017-11-08."))
      else
        check_session_time session_time

/-- Source `validate_conference_booking` (lines 154-185): the type check
(lines 155-159), then the date block, then the time block; the first
violation returns (short-circuit). -/
def validate_conference_booking (parse_date : String → Option PyDate)
    (session_type session_date session_time : Option String)
    (type_set : List String) : Except PyError ValidationResult :=
  match session_type with
  | some t =>
    if !(type_set.contains (py_lower t)) then
      .ok (build_validation_result false (some "SessionType")
        (some ("We cannot find a track named " ++ t ++
          ". The available tracks are Inspire Me, Tech Specific and Seminar")))
    else
      check_session_date parse_date session_date session_time
  | none => check_session_date parse_date session_date session_time

/-! ### The dialog controller (source lines 191-287) -/

/-- The allowed track names (source line 200). -/
def session_types : List String := ["inspire me", "tech specific", "seminar"]

/-- The built-in agenda (source line 201), decoded from the JSON string. -/
def agenda : List Session := [
  ⟨"Opening Remarks", "Inspire Me", "2017-11-08", "09:15", "09:30"⟩,
  ⟨"How Technology Lets You Be YOU", "Inspire Me", "2017-11-08", "09:30", "10:00"⟩,
  ⟨"The Invisible Made Visible", "Inspire Me", "2017-11-08", "10:00", "10:30"⟩,
  ⟨"Business and Cultural Transformation in a Digital World", "Inspire Me", "2017-11-08", "10:30", "11:00"⟩,
  ⟨"How Agile Tribes support WiT", "Inspire Me", "2017-11-08", "11:00", "11:30"⟩,
  ⟨"The Road Ahead", "Inspire Me", "2017-11-08", "11:30", "12:00"⟩,
  ⟨"Quantifying the Effect of D&I Policy", "Inspire Me", "2017-11-08", "12:00", "12:30"⟩,
  ⟨"How We Try to Make a Lion Bulletproof", "Inspire Me", "2017-11-08", "12:30", "13:00"⟩,
  ⟨"Leading Teams in Tech", "Inspire Me", "2017-11-08", "14:00", "14:30"⟩,
  ⟨"Using Situational Awareness to Make Decisions", "Inspire Me", "2017-11-08", "14:30", "15:00"⟩,
  ⟨"How to Take Charge of your Life-Work Balance and Succeed in Ever-Changing Technology World", "Inspire Me", "2017-11-08", "15:00", "15:30"⟩,
  ⟨"The Road Less Traveled By: Engineering a Career in Cybersecurity", "Inspire Me", "2017-11-08", "16:00", "16:30"⟩,
  ⟨"An Engineering Managers Toolkit", "Inspire Me", "2017-11-08", "16:30", "17:00"⟩,
  ⟨"The Path for Women to Rule the Technology World", "Inspire Me", "2017-11-08", "17:00", "17:30"⟩,
  ⟨"Big Data: Myths vs Realities", "Tech Specific", "2017-11-08", "11:30", "12:00"⟩,
  ⟨"Browser Peer to Peer Connections for Fun and Profit", "Tech Specific", "2017-11-08", "12:00", "12:30"⟩,
  ⟨"Building an AI that Respects your Privacy", "Tech Specific", "2017-11-08", "12:30", "13:00"⟩,
  ⟨"Geek + E.I. = Success in AI", "Tech Specific", "2017-11-08", "14:00", "14:30"⟩,
  ⟨"Machine Learning Around Us", "Tech Specific", "2017-11-08", "14:30", "15:00"⟩,
  ⟨"Metabolic Modelling Software", "Tech Specific", "2017-11-08", "15:00", "15:30"⟩,
  ⟨"Project Liftoff", "Tech Specific", "2017-11-08", "16:00", "16:30"⟩,
  ⟨"New Kid on the Block(Chain)", "Tech Specific", "2017-11-08", "16:30", "17:00"⟩,
  ⟨"Optimizing Scrolling Performance of UITableView&UICollectionView", "Tech Specific", "2017-11-08", "17:00", "17:30"⟩,
  ⟨"Augmented Reality: Past, Present & Future", "Seminar", "2017-11-08", "12:30", "13:00"⟩,
  ⟨"Afraid of being Found Out: Kicking Imposter Syndrome in its Stupid Face!", "Seminar", "2017-11-08", "14:00", "15:00"⟩,
  ⟨"Developing for the Human Experience", "Seminar", "2017-11-08", "15:00", "15:30"⟩,
  ⟨"How to Build a Team; Diversity & Gender Inclusivity", "Seminar", "2017-11-08", "17:00", "17:30"⟩]

/-- Source `slots[validation_result['violatedSlot']] = None`
(line 218): dictionary assignment of `None` to the violated slot's key.
An assignment to any other key would add a fresh key and leave the three
named slots unchanged (the validator only ever names these three). -/
def clear_slot (slots : SlotSet) (name : Option String) : SlotSet :=
  match name with
  | some n =>
    if n = "SessionType" then { slots with sessionType := none }
    else if n = "SessionDate" then { slots with sessionDate := none }
    else if n = "SessionTime" then { slots with sessionTime := none }
    else slots
  | none => slots

/-- The slots carried by a dialog action, when it carries any. -/
def action_slots : DialogAction → Option SlotSet
  | .elicitSlot _ s _ _ _ => some s
  | .confirmIntent _ s _ _ => some s
  | .delegate s => some s
  | .close _ _ _ => none

/-- Source `book_session` (lines 191-287), parametric in the external
date parser.  Error values model the uncaught exceptions:
  - `.keyError`: `validation_result['message']` read on a result whose
    `message` key was omitted (the null-message validation failures);
  - `.typeError`: `session['name']` read on the `None` returned by a
    missed `find_session` lookup on the confirmation path;
  - `.valueError` propagates out of `validate_conference_booking`. -/
def book_session (parse_date : String → Option PyDate)
    (intent_request : IntentRequest) : Except PyError Response :=
  let session_type := (get_slots intent_request).sessionType
  let session_date := (get_slots intent_request).sessionDate
  let session_time := (get_slots intent_request).sessionTime
  let output_session_attributes := intent_request.sessionAttributes.getD []
  if intent_request.invocationSource = "DialogCodeHook" then
    let slots := get_slots intent_request
    match validate_conference_booking parse_date session_type session_date
        session_time session_types with
    | .error e => .error e
    | .ok validation_result =>
      if !validation_result.isValid then
        let slots := clear_slot slots validation_result.violatedSlot
        match validation_result.message with
        | none => .error .keyError
        | some msg =>
          .ok (elicit_slot intent_request.sessionAttributes intent_request.intentName
            slots validation_result.violatedSlot (some msg) none)
      else if truthy session_date && truthy session_time && !(truthy session_type) then
        let content := session_types.foldl (fun content t =>
          match find_session (some t) (session_date.getD "") (session_time.getD "") agenda with
          | some session =>
            content ++ "-" ++ session.track ++ " track: " ++ session.name ++
              " from " ++ session.start ++ " to " ++ session.end_ ++ "\n"
          | none => content ++ "-" ++ t ++ " track: None\n") "Sessions found: \n"
        .ok (elicit_slot (some output_session_attributes) intent_request.intentName
          intent_request.slots (some "SessionType")
          (some { contentType := "PlainText",
                  content := content ++ "\nWhat track would you like to attend?" })
          (some (build_response_card "Specify Track" "What track would you like to attend?"
            (some (build_options (session_date.getD "") (session_time.getD "")
              agenda session_types)))))
      else if truthy session_date && truthy session_time && truthy session_type &&
          (intent_request.confirmationStatus == "None") then
        match find_session session_type (session_date.getD "") (session_time.getD "") agenda with
        | none => .error .typeError
        | some session =>
          .ok (confirm_intent (some output_session_attributes) intent_request.intentName
            slots
            (some { contentType := "PlainText",
                    content := "Session " ++ session.name ++ " in the " ++ session.track ++
                      " track at " ++ session.start ++ " on " ++ session.date })
            (some (build_response_card "Confirm attendence" "Do you want to book the session?"
              (some [{ text := "yes", value := "yes" }, { text := "no", value := "no" }]))))
      else
        .ok (delegate (some output_session_attributes) (get_slots intent_request))
  else
    .ok (close intent_request.sessionAttributes "Fulfilled"
      (some { contentType := "PlainText",
              content := "Thank you. We have booked the session for you." })
      (some (build_response_card "Rate the session" "What do you think about this session?"
        (some [{ text := "Great!", value := "1" }, { text := "Fine.", value := "0" },
               { text := "Boring :(", value := "-1" }]))))

/-! ### Concrete fixtures for evaluating the code -/

/-- Reads the value stored under a slot name in a `SlotSet`
(dictionary read; unknown keys are absent). -/
def slot_get (slots : SlotSet) (name : String) : Option String :=
  if name = "SessionType" then slots.sessionType
  else if name = "SessionDate" then slots.sessionDate
  else if name = "SessionTime" then slots.sessionTime
  else none

/-- The agenda entry starting at 12:00 in the Tech Specific track. -/
def browser_session : Session :=
  ⟨"Browser Peer to Peer Connections for Fun and Profit", "Tech Specific",
    "2017-11-08", "12:00", "12:30"⟩

/-- Six buttons, one more than a response card may carry. -/
def six_buttons : List Button :=
  [⟨"a", "1"⟩, ⟨"b", "2"⟩, ⟨"c", "3"⟩, ⟨"d", "4"⟩, ⟨"e", "5"⟩, ⟨"f", "6"⟩]

/-- A DialogCodeHook turn whose only supplied slot is the malformed
four-character time "1234". -/
def null_message_request : IntentRequest :=
  ⟨"CheckConferenceAgenda", ⟨none, none, some "1234"⟩, "None",
    some [], "DialogCodeHook", "user"⟩

/-- A DialogCodeHook turn whose three slots all pass validation
("inspire me", the conference day, 17:45) but match no agenda session:
every Inspire Me session starts at or before 17:00. -/
def no_match_request : IntentRequest :=
  ⟨"CheckConferenceAgenda", ⟨some "inspire me", some "2017-11-08", some "17:45"⟩,
    "None", some [], "DialogCodeHook", "user"⟩

/-- A DialogCodeHook turn whose three validated slots match the
12:00 Tech Specific session. -/
def tech_request : IntentRequest :=
  ⟨"CheckConferenceAgenda", ⟨some "Tech Specific", some "2017-11-08", some "11:45"⟩,
    "None", some [], "DialogCodeHook", "user"⟩

/-- A fulfillment turn carrying junk slot values and a denied
confirmation status. -/
def fulfillment_request : IntentRequest :=
  ⟨"CheckConferenceAgenda", ⟨some "zzz", some "junk", some "bad"⟩, "Denied",
    none, "FulfillmentCodeHook", "user"⟩

/-- A DialogCodeHook turn with an empty slot set. -/
def empty_request : IntentRequest :=
  ⟨"CheckConferenceAgenda", ⟨none, none, none⟩, "None",
    some [], "DialogCodeHook", "user"⟩

/-! ### Shared lemmas -/

/-- When the supplied session type is accepted (absent, or lower-cased in
the allowed set), validation falls through to the date block. -/
theorem validate_type_pass (parse_date : String → Option PyDate)
    (session_type session_date session_time : Option String) (type_set : List String)
    (h : session_type = none ∨
      ∃ t, session_type = some t ∧ type_set.contains (py_lower t) = true) :
    validate_conference_booking parse_date session_type session_date session_time type_set =
      check_session_date parse_date session_date session_time := by
  rcases h with rfl | ⟨t, rfl, ht⟩
  · rfl
  · have ht' : py_lower t ∈ type_set := by simpa using ht
    simp [validate_conference_booking, ht']

/-- When the supplied session date is accepted (absent, or parsing to the
conference date), validation falls through to the time block. -/
theorem validate_date_pass (parse_date : String → Option PyDate)
    (session_date session_time : Option String)
    (h : session_date = none ∨
      ∃ d, session_date = some d ∧ parse_date d = some conference_date) :
    check_session_date parse_date session_date session_time =
      check_session_time session_time := by
  rcases h with rfl | ⟨d, rfl, hd⟩
  · rfl
  · simp [check_session_date, hd]

/-- Clearing a named slot nulls exactly that entry and leaves every other
entry unchanged. -/
theorem clear_slot_frame (slots : SlotSet) (n : String) :
    slot_get (clear_slot slots (some n)) n = none ∧
    ∀ m, m ≠ n → slot_get (clear_slot slots (some n)) m = slot_get slots m := by
  constructor
  · simp only [clear_slot, slot_get]
    split_ifs <;> simp_all
  · intro m hm
    simp only [clear_slot, slot_get]
    split_ifs <;> simp_all

/-! ### Claims -/

/-- C5: on the built-in agenda, the Tech Specific lookup at 11:45 on the
conference day returns the 12:00 session (Browser Peer to Peer
Connections for Fun and Profit), whose start is minimal among the
strictly-later Tech Specific starts that day, and the inspire-me lookup
at 17:45 returns nothing. -/
theorem c5_find_session_concrete :
    find_session (some "Tech Specific") "2017-11-08" "11:45" agenda =
      some browser_session ∧
    (∀ s, s ∈ agenda → session_matches "Tech Specific" "2017-11-08" "11:45" s = true →
      py_str_lt s.start.toList browser_session.start.toList = false) ∧
    find_session (some "inspire me") "2017-11-08" "17:45" agenda = none := by
  refine ⟨by rfl, by decide, by rfl⟩

/-- Witness for C5: the returned session itself satisfies the minimality
bound. -/
theorem c5_witness :
    py_str_lt browser_session.start.toList browser_session.start.toList = false :=
  c5_find_session_concrete.2.1 browser_session (by decide) (by decide)

/-- C6: the option builder returns at most one button per type, and every
response card carries at most five buttons, longer option lists being
truncated silently. -/
theorem c6_bounded_options_and_buttons :
    ∀ (session_date session_time : String) (ag : List Session) (type_set : List String),
      (build_options session_date session_time ag type_set).length ≤ type_set.length ∧
      ∀ (title subtitle : String) (options : Option (List Button)) (att : Attachment),
        att ∈ (build_response_card title subtitle options).genericAttachments →
        ∀ bs, att.buttons = some bs → bs.length ≤ 5 := by
  intro sd st ag ts
  constructor
  · exact List.length_filterMap_le _ _
  · intro title subtitle options att hmem bs hbs
    simp only [build_response_card, List.mem_singleton] at hmem
    subst hmem
    cases options with
    | none => simp at hbs
    | some o =>
      simp only [Option.map_some'] at hbs
      injection hbs with hbs
      subst hbs
      simp [List.length_take]

/-- Witness for C6: a one-type option list is bounded by one, and a card
built from six buttons keeps only five. -/
theorem c6_witness :
    (build_options "2017-11-08" "10:15" agenda ["tech specific"]).length ≤ 1 ∧
    (six_buttons.take 5).length ≤ 5 :=
  ⟨(c6_bounded_options_and_buttons "2017-11-08" "10:15" agenda ["tech specific"]).1,
   (c6_bounded_options_and_buttons "2017-11-08" "10:15" agenda ["tech specific"]).2
     "T" "S" (some six_buttons) ⟨"T", "S", some (six_buttons.take 5)⟩
     (by simp [build_response_card]) (six_buttons.take 5) rfl⟩

/-- C7: any turn whose invocation source is not DialogCodeHook is closed
as Fulfilled with the fixed booking-confirmed message and the
rating-options card, with no validation of the slots. -/
theorem c7_fulfillment_close :
    ∀ (parse_date : String → Option PyDate) (intent_request : IntentRequest),
      intent_request.invocationSource ≠ "DialogCodeHook" →
      book_session parse_date intent_request =
        .ok (close intent_request.sessionAttributes "Fulfilled"
          (some { contentType := "PlainText",
                  content := "Thank you. We have booked the session for you." })
          (some (build_response_card "Rate the session"
            "What do you think about this session?"
            (some [{ text := "Great!", value := "1" }, { text := "Fine.", value := "0" },
                   { text := "Boring :(", value := "-1" }])))) := by
  intro pd req h
  simp [book_session, h]

/-- Witness for C7: the fulfillment turn with junk slots and a denied
status is still closed as Fulfilled. -/
theorem c7_witness :
    book_session parse_iso_date fulfillment_request =
      .ok (close fulfillment_request.sessionAttributes "Fulfilled"
        (some { contentType := "PlainText",
                content := "Thank you. We have booked the session for you." })
        (some (build_response_card "Rate the session"
          "What do you think about this session?"
          (some [{ text := "Great!", value := "1" }, { text := "Fine.", value := "0" },
                 { text := "Boring :(", value := "-1" }])))) :=
  c7_fulfillment_close parse_iso_date fulfillment_request (by decide)

/-- C3: on the null-message time failure "1234" the validator does report
invalid on SessionTime with the message key omitted, and book_session
then raises KeyError reading that absent key instead of returning an
ElicitSlot action. -/
theorem c3_null_message_key_error :
    validate_conference_booking parse_iso_date none none (some "1234") session_types =
      .ok (build_validation_result false (some "SessionTime") none) ∧
    book_session parse_iso_date null_message_request = .error PyError.keyError := by
  exact ⟨by rfl, by rfl⟩

/-- Counterexample to C2 as stated: the 5-character time "12345" has no
colon, so the tuple unpacking of its split raises ValueError instead of
returning a verdict. -/
theorem c2_counterexample :
    validate_conference_booking parse_iso_date none none (some "12345") session_types =
      .error PyError.valueError := by
  rfl

/-- Counterexample to C1 as stated: the slots of `no_match_request` all
pass validation and the confirmation status is None, yet the turn raises
TypeError (the lookup misses and the summary subscripts None) instead of
returning a ConfirmIntent action. -/
theorem c1_counterexample :
    no_match_request.invocationSource = "DialogCodeHook" ∧
    no_match_request.confirmationStatus = "None" ∧
    validate_conference_booking parse_iso_date (some "inspire me") (some "2017-11-08")
      (some "17:45") session_types = .ok (build_validation_result true none none) ∧
    book_session parse_iso_date no_match_request = .error PyError.typeError := by
  exact ⟨rfl, rfl, by rfl, by rfl⟩

/-- Counterexample to C4 as stated: with the empty string as session type
(a present value, not an absent one), the single-session agenda below has
a first session matching the claimed predicate (track equal
case-insensitively, date equal, start strictly later), yet find_session
returns nothing, because Python truthiness treats the empty string like
None. -/
theorem c4_counterexample :
    find_session (some "") "d" "a" [⟨"n", "", "d", "b", "c"⟩] = none ∧
    session_matches "" "d" "a" ⟨"n", "", "d", "b", "c"⟩ = true := by
  exact ⟨by rfl, by rfl⟩

/-- C2 (amended): for every supplied SessionTime string whose
colon-split yields exactly two parts, the time check returns a verdict as
claimed (wrong length or unparsable part: invalid with no message;
parsable hour outside 8..17: invalid with the business-hours message;
hour within 8..17: valid); but a 5-character string whose colon-split
does not yield exactly two parts makes the tuple unpacking raise
ValueError instead of returning a verdict. -/
theorem c2_time_validation :
    ∀ (parse_date : String → Option PyDate) (session_type : Option String)
      (type_set : List String) (session_date : Option String) (t : String),
      (session_type = none ∨
        ∃ ty, session_type = some ty ∧ type_set.contains (py_lower ty) = true) →
      (session_date = none ∨
        ∃ d, session_date = some d ∧ parse_date d = some conference_date) →
      (t.length ≠ 5 →
        validate_conference_booking parse_date session_type session_date (some t) type_set =
          .ok (build_validation_result false (some "SessionTime") none)) ∧
      (∀ h m, t.length = 5 → py_split t ':' = [h, m] →
        ((parse_int h = none ∨ parse_int m = none) →
          validate_conference_booking parse_date session_type session_date (some t) type_set =
            .ok (build_validation_result false (some "SessionTime") none)) ∧
        (∀ hv mv, parse_int h = some hv → parse_int m = some mv →
          ((hv < 8 ∨ hv > 17) →
            validate_conference_booking parse_date session_type session_date (some t) type_set =
              .ok (build_validation_result false (some "SessionTime")
                (some "The conference hours are from 9am to 6pm. Can you specify a time during this range?"))) ∧
          (8 ≤ hv → hv ≤ 17 →
            validate_conference_booking parse_date session_type session_date (some t) type_set =
              .ok (build_validation_result true none none)))) ∧
      (t.length = 5 → (py_split t ':').length ≠ 2 →
        validate_conference_booking parse_date session_type session_date (some t) type_set =
          .error PyError.valueError) := by
  intro pd sty ts sd t hty hdate
  have hred : validate_conference_booking pd sty sd (some t) ts =
      check_session_time (some t) := by
    rw [validate_type_pass pd sty sd (some t) ts hty,
      validate_date_pass pd sd (some t) hdate]
  rw [hred]
  refine ⟨?_, ?_, ?_⟩
  · intro hlen
    simp only [check_session_time]
    rw [if_pos hlen]
  · intro h m hlen hsplit
    simp only [check_session_time]
    rw [if_neg (not_not_intro hlen), hsplit]
    refine ⟨?_, ?_⟩
    · rintro (hh | hm)
      · simp [hh]
      · rcases hph : parse_int h with _ | hv <;> simp [hph, hm]
    · intro hv mv hph hpm
      simp only [hph, hpm]
      constructor
      · intro hrange
        rw [if_pos hrange]
      · intro h8 h17
        rw [if_neg (by omega)]
  · intro hlen hparts
    simp only [check_session_time]
    rw [if_neg (not_not_intro hlen)]
    rcases hsp : py_split t ':' with _ | ⟨a, _ | ⟨b, _ | ⟨c, l⟩⟩⟩
    · rfl
    · rfl
    · rw [hsp] at hparts
      simp at hparts
    · rfl

/-- Witness for C2: the in-range hour 07 with a parsable minute draws the
business-hours message. -/
theorem c2_witness :
    validate_conference_booking parse_iso_date none none (some "07:30") session_types =
      .ok (build_validation_result false (some "SessionTime")
        (some "The conference hours are from 9am to 6pm. Can you specify a time during this range?")) :=
  (((c2_time_validation parse_iso_date none session_types none "07:30"
      (Or.inl rfl) (Or.inl rfl)).2.1 "07" "30" rfl rfl).2 7 30 rfl rfl).1
    (Or.inl (by norm_num))

/-- C8: once the type check passes, an unparsable date fails on
SessionDate with the reprompt message, a date parsing to anything other
than 2017-11-08 fails with the single-supported-date message, and a date
parsing to exactly 2017-11-08 (under any parser, hence in any accepted
formatting) passes the date check and falls through to the time check. -/
theorem c8_date_validation :
    ∀ (parse_date : String → Option PyDate) (session_type : Option String)
      (type_set : List String) (session_date session_time : Option String),
      (session_type = none ∨
        ∃ ty, session_type = some ty ∧ type_set.contains (py_lower ty) = true) →
      (∀ d, session_date = some d → parse_date d = none →
        validate_conference_booking parse_date session_type session_date session_time type_set =
          .ok (build_validation_result false (some "SessionDate")
            (some "I did not understand that, what date would you like to check? e.g. 2017-11-08"))) ∧
      (∀ d dd, session_date = some d → parse_date d = some dd → dd ≠ conference_date →
        validate_conference_booking parse_date session_type session_date session_time type_set =
          .ok (build_validation_result false (some "SessionDate")
            (some "Sorry, we only have one day agenda for this demo. Please input the conference day 2017-11-08."))) ∧
      (∀ d, session_date = some d → parse_date d = some conference_date →
        validate_conference_booking parse_date session_type session_date session_time type_set =
          check_session_time session_time) := by
  intro pd sty ts sd st hty
  rw [validate_type_pass pd sty sd st ts hty]
  refine ⟨?_, ?_, ?_⟩
  · rintro d rfl hnone
    simp only [check_session_date]
    rw [hnone]
  · rintro d dd rfl hparse hne
    simp only [check_session_date]
    rw [hparse]
    simp [hne]
  · rintro d rfl hparse
    simp only [check_session_date]
    rw [hparse]
    simp

/-- Witness for C8: a parseable date other than the conference day draws
the single-supported-date message. -/
theorem c8_witness :
    validate_conference_booking parse_iso_date none (some "2017-12-01") none session_types =
      .ok (build_validation_result false (some "SessionDate")
        (some "Sorry, we only have one day agenda for this demo. Please input the conference day 2017-11-08.")) :=
  (c8_date_validation parse_iso_date none session_types (some "2017-12-01") none
    (Or.inl rfl)).2.1 "2017-12-01" ⟨2017, 12, 1⟩ rfl rfl (by decide)

/-- C10: a five-character time splitting into two parsable parts whose
hour lies in 8..17 is reported valid whatever integer the minute part
denotes — the minute is never range-checked. -/
theorem c10_minute_unchecked :
    ∀ (parse_date : String → Option PyDate) (session_type : Option String)
      (type_set : List String) (session_date : Option String)
      (t h m : String) (hv mv : Int),
      (session_type = none ∨
        ∃ ty, session_type = some ty ∧ type_set.contains (py_lower ty) = true) →
      (session_date = none ∨
        ∃ d, session_date = some d ∧ parse_date d = some conference_date) →
      t.length = 5 → py_split t ':' = [h, m] →
      parse_int h = some hv → 8 ≤ hv → hv ≤ 17 →
      parse_int m = some mv →
      validate_conference_booking parse_date session_type session_date (some t) type_set =
        .ok (build_validation_result true none none) := by
  intro pd sty ts sd t h m hv mv hty hdate hlen hsplit hph h8 h17 hpm
  rw [validate_type_pass pd sty sd (some t) ts hty,
    validate_date_pass pd sd (some t) hdate]
  simp only [check_session_time]
  rw [if_neg (not_not_intro hlen), hsplit]
  simp only [hph, hpm]
  rw [if_neg (by omega)]

/-- Witness for C10: the out-of-range minute 99 passes. -/
theorem c10_witness :
    validate_conference_booking parse_iso_date none none (some "09:99") session_types =
      .ok (build_validation_result true none none) :=
  c10_minute_unchecked parse_iso_date none session_types none "09:99" "09" "99" 9 99
    (Or.inl rfl) (Or.inl rfl) rfl rfl rfl (by norm_num) (by norm_num) rfl

/-- C4 (amended): find_session returns nothing when the session type is
absent or the empty string (Python truthiness); for a non-empty type it
returns the first agenda-order session matching case-insensitive track,
exact date and strictly later start, and nothing when no session
qualifies. -/
theorem c4_find_session_characterization :
    ∀ (session_type : Option String) (session_date session_time : String)
      (ag : List Session),
      (session_type = none → find_session session_type session_date session_time ag = none) ∧
      (session_type = some "" → find_session session_type session_date session_time ag = none) ∧
      (∀ t, session_type = some t → t ≠ "" →
        (find_session session_type session_date session_time ag = none ↔
          ∀ s ∈ ag, session_matches t session_date session_time s = false) ∧
        (∀ s, find_session session_type session_date session_time ag = some s →
          ∃ l1 l2, ag = l1 ++ s :: l2 ∧
            session_matches t session_date session_time s = true ∧
            ∀ x ∈ l1, session_matches t session_date session_time x = false)) := by
  intro sty sd st ag
  refine ⟨?_, ?_, ?_⟩
  · rintro rfl; rfl
  · rintro rfl; rfl
  · rintro t rfl hne
    have hfind : find_session (some t) sd st ag =
        ag.find? (session_matches t sd st) := by
      simp [find_session, hne]
    rw [hfind]
    constructor
    · rw [List.find?_eq_none]
      simp [Bool.not_eq_true]
    · intro s hsome
      rw [List.find?_eq_some] at hsome
      obtain ⟨hps, as, bs, hag, hall⟩ := hsome
      exact ⟨as, bs, hag, hps, fun x hx => by simpa using hall x hx⟩

/-- Witness for C4: the Tech Specific lookup at 11:45 splits the agenda
around the returned 12:00 session, with no earlier agenda entry
matching. -/
theorem c4_witness :
    ∃ l1 l2, agenda = l1 ++ browser_session :: l2 ∧
      session_matches "Tech Specific" "2017-11-08" "11:45" browser_session = true ∧
      ∀ x ∈ l1, session_matches "Tech Specific" "2017-11-08" "11:45" x = false :=
  ((c4_find_session_characterization (some "Tech Specific") "2017-11-08" "11:45"
      agenda).2.2 "Tech Specific" rfl (by decide)).2 browser_session (by rfl)

/-- C1 (amended): on a DialogCodeHook turn whose three slots are present
and non-empty, pass validation, and whose confirmation status is None,
book_session returns the ConfirmIntent summary when the lookup finds a
session; when no session matches, the field access on the missing session
raises TypeError instead. -/
theorem c1_confirmation_turn :
    ∀ (parse_date : String → Option PyDate) (intent_request : IntentRequest),
      intent_request.invocationSource = "DialogCodeHook" →
      validate_conference_booking parse_date intent_request.slots.sessionType
        intent_request.slots.sessionDate intent_request.slots.sessionTime session_types =
        .ok (build_validation_result true none none) →
      truthy intent_request.slots.sessionType = true →
      truthy intent_request.slots.sessionDate = true →
      truthy intent_request.slots.sessionTime = true →
      intent_request.confirmationStatus = "None" →
      (∀ s, find_session intent_request.slots.sessionType
          (intent_request.slots.sessionDate.getD "")
          (intent_request.slots.sessionTime.getD "") agenda = some s →
        book_session parse_date intent_request =
          .ok (confirm_intent (some (intent_request.sessionAttributes.getD []))
            intent_request.intentName intent_request.slots
            (some { contentType := "PlainText",
                    content := "Session " ++ s.name ++ " in the " ++ s.track ++
                      " track at " ++ s.start ++ " on " ++ s.date })
            (some (build_response_card "Confirm attendence"
              "Do you want to book the session?"
              (some [{ text := "yes", value := "yes" },
                     { text := "no", value := "no" }]))))) ∧
      (find_session intent_request.slots.sessionType
          (intent_request.slots.sessionDate.getD "")
          (intent_request.slots.sessionTime.getD "") agenda = none →
        book_session parse_date intent_request = .error PyError.typeError) := by
  intro pd req hsrc hval hty hdt htt hconf
  constructor
  · intro s hfind
    simp only [book_session, get_slots]
    rw [if_pos hsrc, hval]
    simp only [build_validation_result, hty, hdt, htt, hconf, hfind]
    simp
  · intro hfind
    simp only [book_session, get_slots]
    rw [if_pos hsrc, hval]
    simp only [build_validation_result, hty, hdt, htt, hconf, hfind]
    simp

/-- Witness for C1: the validated Tech Specific 11:45 turn is confirmed
with the 12:00 session summary. -/
theorem c1_witness :
    book_session parse_iso_date tech_request =
      .ok (confirm_intent (some (tech_request.sessionAttributes.getD []))
        tech_request.intentName tech_request.slots
        (some { contentType := "PlainText",
                content := "Session " ++ browser_session.name ++ " in the " ++
                  browser_session.track ++ " track at " ++ browser_session.start ++
                  " on " ++ browser_session.date })
        (some (build_response_card "Confirm attendence"
          "Do you want to book the session?"
          (some [{ text := "yes", value := "yes" },
                 { text := "no", value := "no" }])))) :=
  (c1_confirmation_turn parse_iso_date tech_request rfl (by rfl) rfl rfl rfl rfl).1
    browser_session (by rfl)

/-- C9: every successful turn either carries no slot set (Close), carries
the incoming slot set unchanged (type elicitation, confirmation,
delegation), or is a validation failure whose ElicitSlot carries the
incoming slots with exactly the violated entry nulled and every other
entry unchanged. -/
theorem c9_slot_frame :
    ∀ (parse_date : String → Option PyDate) (intent_request : IntentRequest)
      (resp : Response),
      book_session parse_date intent_request = .ok resp →
      (action_slots resp.dialogAction = none ∨
       action_slots resp.dialogAction = some (get_slots intent_request)) ∨
      (∃ vr, validate_conference_booking parse_date intent_request.slots.sessionType
          intent_request.slots.sessionDate intent_request.slots.sessionTime
          session_types = .ok vr ∧ vr.isValid = false ∧
        resp.dialogAction = .elicitSlot intent_request.intentName
          (clear_slot (get_slots intent_request) vr.violatedSlot)
          vr.violatedSlot vr.message none ∧
        (∀ n, vr.violatedSlot = some n →
          slot_get (clear_slot (get_slots intent_request) (some n)) n = none ∧
          ∀ m, m ≠ n →
            slot_get (clear_slot (get_slots intent_request) (some n)) m =
              slot_get (get_slots intent_request) m)) := by
  intro pd req resp hbook
  simp only [book_session, get_slots] at hbook
  split at hbook
  · split at hbook
    · exact absurd hbook (by simp)
    · rename_i vr hval
      split at hbook
      · rename_i hinvalid
        split at hbook
        · exact absurd hbook (by simp)
        · rename_i msg hmsg
          rw [Except.ok.injEq] at hbook
          subst hbook
          refine Or.inr ⟨vr, hval, by simpa using hinvalid, ?_, ?_⟩
          · rw [hmsg]; rfl
          · intro n hn
            exact clear_slot_frame req.slots n
      · split at hbook
        · rw [Except.ok.injEq] at hbook
          subst hbook
          left; right; rfl
        · split at hbook
          · split at hbook
            · exact absurd hbook (by simp)
            · rw [Except.ok.injEq] at hbook
              subst hbook
              left; right; rfl
          · rw [Except.ok.injEq] at hbook
            subst hbook
            left; right; rfl
  · rw [Except.ok.injEq] at hbook
    subst hbook
    left; left; rfl

/-- Witness for C9: the empty-slot DialogCodeHook turn delegates carrying
the incoming (empty) slot set. -/
theorem c9_witness :
    (action_slots (delegate (some []) ⟨none, none, none⟩).dialogAction = none ∨
     action_slots (delegate (some []) ⟨none, none, none⟩).dialogAction =
       some (get_slots empty_request)) ∨
    (∃ vr, validate_conference_booking parse_iso_date empty_request.slots.sessionType
        empty_request.slots.sessionDate empty_request.slots.sessionTime session_types =
        .ok vr ∧ vr.isValid = false ∧
      (delegate (some []) ⟨none, none, none⟩).dialogAction = .elicitSlot
        empty_request.intentName
        (clear_slot (get_slots empty_request) vr.violatedSlot) vr.violatedSlot
        vr.message none ∧
      (∀ n, vr.violatedSlot = some n →
        slot_get (clear_slot (get_slots empty_request) (some n)) n = none ∧
        ∀ m, m ≠ n →
          slot_get (clear_slot (get_slots empty_request) (some n)) m =
            slot_get (get_slots empty_request) m)) :=
  c9_slot_frame parse_iso_date empty_request (delegate (some []) ⟨none, none, none⟩)
    (by rfl)
